import Mathlib

/-!
Verification of the update-delivery transport layer of botango
(`src/botango/core/connection.py`), shallowly embedded in Lean 4.

Pure decision logic is translated into Lean functions; the effectful parts
(HTTP requests, the dispatcher, subprocesses) are represented by explicit
effect records and outcome parameters, so every branch the Python code can
take corresponds to a concrete input of the Lean model.
-/

namespace Botango

/-! ## Python-level helpers -/

/-- Truthiness of an optional Python string: `None` and `""` are falsy. -/
def pyFalsy : Option String → Bool
  | none => true
  | some s => s.isEmpty

/-- Functional behaviour of `hmac.compare_digest` on two strings:
it decides equality (the constant-time execution profile is a timing
property with no functional content). -/
def compare_digest (a b : String) : Bool := a == b

/-- Python `s.rstrip("/")`: drop every trailing `/` character. -/
def rstripSlash (s : String) : String :=
  String.mk ((s.data.reverse.dropWhile (fun c => c == '/')).reverse)

/-! ## `WebhookBot._handle` (connection.py lines 96-112)

The handler reads the `X-Telegram-Bot-Api-Secret-Token` header, rejects
with 403 unless it is truthy and `compare_digest`-equal to the configured
secret, then parses the JSON body, then validates and dispatches the
update.  The outcome of `await request.json()` and of
`Update.model_validate` / `Dispatcher.feed_update` are inputs of the
model; the observable effects are collected in `HandleEffects`. -/

/-- Outcome of `await request.json()` on the request body. -/
inductive JsonResult where
  /-- The body decoded as JSON (payload contents are irrelevant here). -/
  | ok (payload : Nat)
  /-- `request.json()` raised: the body is not valid JSON. -/
  | invalid
deriving DecidableEq, Repr

/-- Outcome of `Update.model_validate` followed by
`Dispatcher.feed_update` on a decoded payload. -/
inductive ProcessOutcome where
  /-- Validation and dispatch both succeeded. -/
  | ok
  /-- `Update.model_validate` raised; `feed_update` was never reached. -/
  | validateRaises
  /-- `feed_update` raised. -/
  | dispatchRaises
deriving DecidableEq, Repr

/-- Observable effects of one call of `WebhookBot._handle`. -/
structure HandleEffects where
  /-- HTTP status of the response. -/
  status : Nat
  /-- The `"ok"` field of the JSON response body; `none` for the bare
  403 response, which has an empty body. -/
  okField : Option Bool
  /-- Whether `request.json()` was called (the body was read/parsed). -/
  jsonCalled : Bool
  /-- Whether `Dispatcher.feed_update` was invoked. -/
  feedUpdateCalled : Bool
  /-- Whether a failure was logged via `event.exception`. -/
  exceptionLogged : Bool
deriving DecidableEq, Repr

/-- Model of `WebhookBot._handle`.  `webhookSecret` is
`self._webhook_secret`; `headerSecret` is
`request.headers.get("X-Telegram-Bot-Api-Secret-Token")` (`none` when the
header is absent). -/
def WebhookBot.handle (webhookSecret : String) (headerSecret : Option String)
    (json : JsonResult) (outcome : ProcessOutcome) : HandleEffects :=
  -- if not header_secret or not hmac.compare_digest(header_secret, self._webhook_secret):
  --     return web.Response(status=403)
  if pyFalsy headerSecret || !compare_digest (headerSecret.getD "") webhookSecret then
    { status := 403, okField := none, jsonCalled := false,
      feedUpdateCalled := false, exceptionLogged := false }
  else
    match json with
    | .invalid =>
      -- except: event.exception(...); return json_response({"ok": False, ...}, status=200)
      { status := 200, okField := some false, jsonCalled := true,
        feedUpdateCalled := false, exceptionLogged := true }
    | .ok _ =>
      match outcome with
      | .validateRaises =>
        { status := 200, okField := some true, jsonCalled := true,
          feedUpdateCalled := false, exceptionLogged := true }
      | .dispatchRaises =>
        { status := 200, okField := some true, jsonCalled := true,
          feedUpdateCalled := true, exceptionLogged := true }
      | .ok =>
        { status := 200, okField := some true, jsonCalled := true,
          feedUpdateCalled := true, exceptionLogged := false }

/-! ## `NgrokManager.wait_for_https_tunnel` (lines 274-290)

The loop polls the discovery API once per iteration (sleeping 0.5s
between attempts) until the deadline passes.  A run is modelled by the
finite trace of poll responses the discovery API would produce before the
deadline: each entry is either a network error (swallowed by the
`except Exception: pass`) or the `"tunnels"` list of `public_url`
strings (an entry missing the field yields `""` via `t.get`). -/

/-- One poll of the local discovery API. -/
inductive PollResult where
  /-- The HTTP request (or JSON decoding) raised. -/
  | netError
  /-- The API answered with this list of `public_url` values. -/
  | tunnels (urls : List String)
deriving DecidableEq, Repr

/-- Python `pub.startswith("https://")`, computed as a prefix test on
the character sequence. -/
def startsWithHttps (s : String) : Bool := "https://".data.isPrefixOf s.data

/-- First url of a `"tunnels"` list that starts with `"https://"`,
exactly as the `for t in data.get("tunnels", [])` loop scans it. -/
def firstHttps : List String → Option String
  | [] => none
  | u :: rest => if startsWithHttps u then some u else firstHttps rest

/-- The https url one poll yields, if any. -/
def pollHttps : PollResult → Option String
  | .netError => none
  | .tunnels urls => firstHttps urls

/-- Model of `NgrokManager.wait_for_https_tunnel`: scan the trace of
polls available before the deadline; return the first https url
(trailing slashes stripped), or `TimeoutError` once the trace is
exhausted. -/
def NgrokManager.waitForHttpsTunnel : List PollResult → Except Unit String
  | [] => .error ()
  | p :: rest =>
    match pollHttps p with
    | some u => .ok (rstripSlash u)
    | none => NgrokManager.waitForHttpsTunnel rest

/-! ## `NgrokManager.stop` (lines 292-300) -/

/-- State of `self.proc` of an `NgrokManager`. -/
inductive ProcState where
  /-- `self.proc is None`: nothing was started (or `stop` already ran). -/
  | noProc
  /-- A process handle is held and `poll()` returns `None` (alive). -/
  | running
  /-- A process handle is held but the process already exited. -/
  | exited
deriving DecidableEq, Repr

/-- Subprocess operations `stop` can perform. -/
inductive StopCall where
  /-- `send_signal(SIGINT)` followed by a successful `wait(timeout=5)`. -/
  | sigintWait
  /-- `kill()` issued after the graceful attempt raised. -/
  | kill
deriving DecidableEq, Repr

/-- Model of `NgrokManager.stop`.  `gracefulOk` tells whether
`send_signal` + `wait(timeout=5)` runs without raising (a timeout or any
other exception is caught and answered with `kill()`).  Returns the new
`self.proc` state and the subprocess calls performed; the function is
total, i.e. `stop` never raises. -/
def NgrokManager.stop (s : ProcState) (gracefulOk : Bool) :
    ProcState × List StopCall :=
  match s with
  | .running =>
    (.noProc, if gracefulOk then [.sigintWait] else [.sigintWait, .kill])
  | _ => (.noProc, [])

/-! ## `WebhookBot._on_startup` (lines 114-132) -/

/-- The Python value of `self._allowed_updates` as `_on_startup`
inspects it: `None`, a list, or any other object (the
`isinstance(..., list)` test). -/
inductive AllowedUpdatesVal where
  | pyNone
  | pyList (l : List String)
  | pyOther
deriving DecidableEq, Repr

/-- The normalisation performed by
`if self._allowed_updates is None or not isinstance(self._allowed_updates, list)`. -/
def normalizeAllowedUpdates : AllowedUpdatesVal → List String
  | .pyList l => l
  | _ => ["message", "callback_query"]

/-- Arguments of the `bot.set_webhook` call issued during startup. -/
structure SetWebhookCall where
  url : String
  secretToken : String
  allowedUpdates : List String
  dropPendingUpdates : Bool
deriving DecidableEq, Repr

/-- Model of the registration step of `WebhookBot._on_startup`: the
webhook url is the resolved base concatenated with the path, and the
call carries the shared secret, the normalised allow-list, and the
drop-pending flag. -/
def WebhookBot.onStartupSetWebhook (base path secret : String)
    (allowed : AllowedUpdatesVal) (drop : Bool) : SetWebhookCall :=
  { url := base ++ path
    secretToken := secret
    allowedUpdates := normalizeAllowedUpdates allowed
    dropPendingUpdates := drop }

/-! ## `WebhookBot._on_cleanup` (lines 134-140)

```python
try:
    await self._dispatcher.emit_shutdown()
except AttributeError:
    pass
await self._bot.delete_webhook()
await self.app["http_session"].close()
```
No exception handling surrounds `delete_webhook` or `close`. -/

/-- Outcome of `self._dispatcher.emit_shutdown()`. -/
inductive EmitShutdownOutcome where
  | ok
  /-- Raised `AttributeError` — caught by the `except AttributeError`. -/
  | attrError
  /-- Raised some other exception — propagates out of `_on_cleanup`. -/
  | otherError
deriving DecidableEq, Repr

/-- Observable effects of one run of `WebhookBot._on_cleanup`. -/
structure CleanupEffects where
  /-- Whether `bot.delete_webhook()` was invoked. -/
  deleteWebhookCalled : Bool
  /-- Whether `http_session.close()` was invoked. -/
  sessionClosed : Bool
  /-- Whether `_on_cleanup` itself raised. -/
  raised : Bool
  /-- Whether a delete-webhook failure was logged. -/
  deleteFailureLogged : Bool
deriving DecidableEq, Repr

/-- Model of `WebhookBot._on_cleanup`.  `deleteWebhookFails` tells
whether the `delete_webhook` call raises. -/
def WebhookBot.onCleanup (emit : EmitShutdownOutcome)
    (deleteWebhookFails : Bool) : CleanupEffects :=
  match emit with
  | .otherError =>
    { deleteWebhookCalled := false, sessionClosed := false,
      raised := true, deleteFailureLogged := false }
  | _ =>
    if deleteWebhookFails then
      { deleteWebhookCalled := true, sessionClosed := false,
        raised := true, deleteFailureLogged := false }
    else
      { deleteWebhookCalled := true, sessionClosed := true,
        raised := false, deleteFailureLogged := false }

/-! ## `NgrokWebhook` (lines 302-354)

`NgrokWebhook.__init__` executes

```python
kwargs.pop("base_url", None)
super().__init__(token=token, base_url=None, webhook_secret=webhook_secret)
```

so whatever `base_url` keyword the caller supplied is discarded and
`self._base_url` is `None` after construction.
`_resolve_public_base_url` then branches on `self._base_url`. -/

/-- The state of a webhook transport that `_resolve_public_base_url`
reads. -/
structure NgrokWebhookState where
  /-- `self._base_url`. -/
  baseUrl : Option String
  /-- `self._webhook_secret`. -/
  webhookSecret : String
  /-- `self._webhook_path`. -/
  webhookPath : String
deriving DecidableEq, Repr

/-- `WebhookBot.__init__`: stores the base url and secret, prefixing the
path with `/` when missing. -/
def WebhookBot.construct (baseUrl : Option String) (secret path : String) :
    NgrokWebhookState :=
  { baseUrl := baseUrl
    webhookSecret := secret
    webhookPath := if path.startsWith "/" then path else "/" ++ path }

/-- `NgrokWebhook.__init__`: pops `base_url` from the keyword arguments
and calls `super().__init__` with `base_url=None`, so the supplied
`kwargsBaseUrl` never reaches the stored state (and the default webhook
path is used, as the remaining kwargs are not forwarded either). -/
def NgrokWebhook.construct (secret : String) (kwargsBaseUrl : Option String) :
    NgrokWebhookState :=
  WebhookBot.construct none secret "/telegram/webhook"

/-- Tunnel-manager operations `_resolve_public_base_url` can invoke. -/
inductive MgrCall where
  /-- `self._ngrok_mgr.install()`. -/
  | install
  /-- `self._ngrok_mgr.ensure_token(...)`. -/
  | ensureToken
  /-- `wait_for_https_tunnel(timeout=1.0)` — the quick probe. -/
  | probe1s
  /-- `self._ngrok_mgr.start(port=...)`. -/
  | start
  /-- `wait_for_https_tunnel(timeout=30.0)`. -/
  | wait30s
deriving DecidableEq, Repr

/-- Environment of one resolution attempt: whether an ngrok auth token
was configured, and what each `wait_for_https_tunnel` call would return
(`none` = it raises, which the probe's `except Exception: pass`
swallows). -/
structure TunnelEnv where
  hasNgrokToken : Bool
  probeResult : Option String
  waitResult : Option String
deriving DecidableEq, Repr

/-- Model of `NgrokWebhook._resolve_public_base_url`: returns the
sequence of tunnel-manager calls performed, and the resolved base url or
an error (the propagated `TimeoutError` of the final wait). -/
def NgrokWebhook.resolvePublicBaseUrl (st : NgrokWebhookState)
    (env : TunnelEnv) : List MgrCall × Except Unit String :=
  -- if self._base_url: return self._base_url.rstrip("/")
  if ¬ pyFalsy st.baseUrl then
    ([], .ok (rstripSlash (st.baseUrl.getD "")))
  else
    -- self._ngrok_mgr.install(); if token: ensure_token(token)
    let pre : List MgrCall :=
      .install :: (if env.hasNgrokToken then [.ensureToken] else [])
    -- try: return await wait_for_https_tunnel(timeout=1.0) except Exception: pass
    match env.probeResult with
    | some u => (pre ++ [.probe1s], .ok u)
    | none =>
      -- self._ngrok_mgr.start(...); return await wait_for_https_tunnel(timeout=30.0)
      match env.waitResult with
      | some u => (pre ++ [.probe1s, .start, .wait30s], .ok u)
      | none => (pre ++ [.probe1s, .start, .wait30s], .error ())

/-! ## Claim theorems -/

/-- C1: for every inbound request whose secret header is absent or does
not equal the configured webhook secret (the functional content of the
constant-time `hmac.compare_digest` check), `_handle` responds 403,
never reads the body, never reaches the dispatcher, and logs nothing. -/
theorem handle_rejects_missing_or_mismatched_secret
    (webhookSecret : String) (headerSecret : Option String)
    (json : JsonResult) (outcome : ProcessOutcome)
    (h : ∀ s, headerSecret = some s → s ≠ webhookSecret) :
    WebhookBot.handle webhookSecret headerSecret json outcome =
      { status := 403, okField := none, jsonCalled := false,
        feedUpdateCalled := false, exceptionLogged := false } := by
  cases headerSecret with
  | none => rfl
  | some s =>
    have hne : s ≠ webhookSecret := h s rfl
    simp [WebhookBot.handle, pyFalsy, compare_digest, hne]

/-- Witness for C1 at the spec's scenario: secret `"abc123"`,
header `"abc124"`. -/
theorem handle_rejects_missing_or_mismatched_secret_witness :
    WebhookBot.handle "abc123" (some "abc124") (.ok 0) .ok =
      { status := 403, okField := none, jsonCalled := false,
        feedUpdateCalled := false, exceptionLogged := false } :=
  handle_rejects_missing_or_mismatched_secret "abc123" (some "abc124")
    (.ok 0) .ok (fun s hs => by injection hs with h; subst h; decide)

/-- C2: with a correct (hence non-empty) secret header and a body that
decodes as JSON, any exception raised by `Update.model_validate` or
`Dispatcher.feed_update` is caught and logged, and the response is still
status 200 with body `{"ok": true}`. -/
theorem handle_accepts_despite_dispatch_failure
    (webhookSecret : String) (payload : Nat) (outcome : ProcessOutcome)
    (h : webhookSecret.isEmpty = false) :
    (WebhookBot.handle webhookSecret (some webhookSecret)
        (.ok payload) outcome).status = 200 ∧
    (WebhookBot.handle webhookSecret (some webhookSecret)
        (.ok payload) outcome).okField = some true ∧
    (outcome ≠ .ok →
      (WebhookBot.handle webhookSecret (some webhookSecret)
          (.ok payload) outcome).exceptionLogged = true) := by
  cases outcome <;> simp [WebhookBot.handle, pyFalsy, compare_digest, h]

/-- Witness for C2: secret `"abc123"`, failing dispatch. -/
theorem handle_accepts_despite_dispatch_failure_witness :
    (WebhookBot.handle "abc123" (some "abc123")
        (.ok 0) .dispatchRaises).status = 200 ∧
    (WebhookBot.handle "abc123" (some "abc123")
        (.ok 0) .dispatchRaises).okField = some true ∧
    (ProcessOutcome.dispatchRaises ≠ .ok →
      (WebhookBot.handle "abc123" (some "abc123")
          (.ok 0) .dispatchRaises).exceptionLogged = true) :=
  handle_accepts_despite_dispatch_failure "abc123" 0 .dispatchRaises (by decide)

/-- C7: with a correct (hence non-empty) secret header and a body that
fails to decode as JSON, the response is status 200 with `"ok": false`,
the dispatcher is never reached, and the failure is logged. -/
theorem handle_invalid_json_dropped
    (webhookSecret : String) (outcome : ProcessOutcome)
    (h : webhookSecret.isEmpty = false) :
    WebhookBot.handle webhookSecret (some webhookSecret) .invalid outcome =
      { status := 200, okField := some false, jsonCalled := true,
        feedUpdateCalled := false, exceptionLogged := true } := by
  simp [WebhookBot.handle, pyFalsy, compare_digest, h]

/-- Witness for C7 at secret `"abc123"`. -/
theorem handle_invalid_json_dropped_witness :
    WebhookBot.handle "abc123" (some "abc123") .invalid .ok =
      { status := 200, okField := some false, jsonCalled := true,
        feedUpdateCalled := false, exceptionLogged := true } :=
  handle_invalid_json_dropped "abc123" .ok (by decide)

/-- C10: with an empty configured webhook secret, every request is
answered 403 — including one whose header is the empty string and thus
equal to the secret — because `not header_secret` is true for the empty
header before `compare_digest` is consulted. -/
theorem handle_empty_secret_always_403
    (headerSecret : Option String) (json : JsonResult)
    (outcome : ProcessOutcome) :
    (WebhookBot.handle "" headerSecret json outcome).status = 403 := by
  cases headerSecret with
  | none => rfl
  | some s =>
    by_cases hs : s.isEmpty
    · simp [WebhookBot.handle, pyFalsy, hs]
    · have hne : s ≠ "" := by
        intro hs'
        rw [hs'] at hs
        exact hs rfl
      simp [WebhookBot.handle, pyFalsy, compare_digest, hs, hne]

/-- C5: `wait_for_https_tunnel` over the finite trace of polls available
before the deadline: it times out exactly when no poll before the
deadline yields an https entry (network errors being swallowed and the
poll retried), and otherwise returns the first `public_url` starting
with `"https://"`, trailing slash stripped. -/
theorem waitForHttpsTunnel_spec (polls : List PollResult) :
    (NgrokManager.waitForHttpsTunnel polls = .error () ↔
      ∀ p ∈ polls, pollHttps p = none) ∧
    (∀ raw, polls.findSome? pollHttps = some raw →
      NgrokManager.waitForHttpsTunnel polls = .ok (rstripSlash raw)) := by
  induction polls with
  | nil => simp [NgrokManager.waitForHttpsTunnel]
  | cons p rest ih =>
    cases hp : pollHttps p with
    | some u =>
      simp [NgrokManager.waitForHttpsTunnel, List.findSome?_cons, hp]
    | none =>
      refine ⟨?_, ?_⟩
      · simp [NgrokManager.waitForHttpsTunnel, hp, ih.1]
      · intro raw hr
        rw [List.findSome?_cons_of_isNone _ (by simp [hp])] at hr
        simpa [NgrokManager.waitForHttpsTunnel, hp] using ih.2 raw hr

/-- Witness for C5 at the spec's scenario: a network error followed by
`{"tunnels": [{"public_url": "http://x"}, {"public_url": "https://y.ngrok.io"}]}`
resolves to `"https://y.ngrok.io"`. -/
theorem waitForHttpsTunnel_spec_witness :
    NgrokManager.waitForHttpsTunnel
        [PollResult.netError, PollResult.tunnels ["http://x", "https://y.ngrok.io"]] =
      Except.ok "https://y.ngrok.io" := by
  have h := (waitForHttpsTunnel_spec
      [PollResult.netError, PollResult.tunnels ["http://x", "https://y.ngrok.io"]]).2
    "https://y.ngrok.io" (by decide)
  rw [show rstripSlash "https://y.ngrok.io" = "https://y.ngrok.io" from by decide] at h
  exact h

/-- C8: `NgrokManager.stop` is idempotent and total (never raises): any
call leaves no process handle, a second consecutive call performs no
subprocess operation, and a call with no process ever started performs
none either. -/
theorem stop_idempotent (s : ProcState) (g g' : Bool) :
    (NgrokManager.stop s g).1 = .noProc ∧
    NgrokManager.stop (NgrokManager.stop s g).1 g' = (.noProc, []) ∧
    NgrokManager.stop .noProc g = (.noProc, []) := by
  cases s <;> simp [NgrokManager.stop]

/-- C9: when the stored allow-list value is `None` or not a list, the
`set_webhook` call of `_on_startup` carries the default allow-list
`["message", "callback_query"]`, together with the shared secret and the
drop-pending flag. -/
theorem onStartup_default_allow_list
    (base path secret : String) (drop : Bool) (v : AllowedUpdatesVal)
    (h : v = .pyNone ∨ v = .pyOther) :
    WebhookBot.onStartupSetWebhook base path secret v drop =
      { url := base ++ path, secretToken := secret,
        allowedUpdates := ["message", "callback_query"],
        dropPendingUpdates := drop } := by
  rcases h with h | h <;> subst h <;> rfl

/-- Witness for C9 at a concrete startup with no allow-list given. -/
theorem onStartup_default_allow_list_witness :
    WebhookBot.onStartupSetWebhook "https://b.example" "/telegram/webhook"
        "abc123" .pyNone true =
      { url := "https://b.example" ++ "/telegram/webhook",
        secretToken := "abc123",
        allowedUpdates := ["message", "callback_query"],
        dropPendingUpdates := true } :=
  onStartup_default_allow_list "https://b.example" "/telegram/webhook"
    "abc123" true .pyNone (Or.inl rfl)

/-- C4 counterexample: when `delete_webhook` fails, `_on_cleanup` does
NOT close the HTTP session, does not log the failure, and raises — the
claim that the client is always released and the failure is logged and
non-fatal is false on the code. -/
theorem onCleanup_counterexample :
    (WebhookBot.onCleanup .ok true).sessionClosed = false ∧
    (WebhookBot.onCleanup .ok true).deleteFailureLogged = false ∧
    (WebhookBot.onCleanup .ok true).raised = true := by decide

/-- C4 amended: `_on_cleanup` closes the HTTP session only when
`delete_webhook` succeeds; a delete-webhook failure propagates unlogged
and prevents the session from being closed. -/
theorem onCleanup_delete_failure_propagates
    (emit : EmitShutdownOutcome) (hemit : emit ≠ .otherError) :
    (WebhookBot.onCleanup emit true).sessionClosed = false ∧
    (WebhookBot.onCleanup emit true).raised = true ∧
    (WebhookBot.onCleanup emit true).deleteFailureLogged = false ∧
    (WebhookBot.onCleanup emit false).sessionClosed = true := by
  cases emit <;> simp [WebhookBot.onCleanup] at hemit ⊢

/-- Witness for the amended C4 with `emit_shutdown` succeeding. -/
theorem onCleanup_delete_failure_propagates_witness :
    (WebhookBot.onCleanup .ok true).sessionClosed = false ∧
    (WebhookBot.onCleanup .ok true).raised = true ∧
    (WebhookBot.onCleanup .ok true).deleteFailureLogged = false ∧
    (WebhookBot.onCleanup .ok false).sessionClosed = true :=
  onCleanup_delete_failure_propagates .ok (by decide)

/-- C3: evaluation at the failing input.  Constructing an
`NgrokWebhook` with `base_url="https://mybot.example.com/"` leaves
`self._base_url = None` (the constructor pops the keyword), so
resolution takes the tunnel path: the manager IS invoked (`install`,
then the probe) and the resolved url is the tunnel's, not the
configured static one. -/
theorem ngrokWebhook_discards_static_base_url :
    (NgrokWebhook.construct "s" (some "https://mybot.example.com/")).baseUrl
        = none ∧
    NgrokWebhook.resolvePublicBaseUrl
        (NgrokWebhook.construct "s" (some "https://mybot.example.com/"))
        { hasNgrokToken := false, probeResult := some "https://y.ngrok.io",
          waitResult := none } =
      ([MgrCall.install, MgrCall.probe1s], Except.ok "https://y.ngrok.io") :=
  ⟨rfl, rfl⟩

/-- C6 counterexample: with no static base url and a succeeding ≈1s
probe, `install()` (and `ensure_token()` when a token is configured)
still execute, and they execute before the probe — refuting the claim
that no installation or provisioning step runs when the probe
succeeds. -/
theorem resolve_installs_before_probe_counterexample :
    (NgrokWebhook.resolvePublicBaseUrl
        { baseUrl := none, webhookSecret := "s",
          webhookPath := "/telegram/webhook" }
        { hasNgrokToken := true, probeResult := some "https://y.ngrok.io",
          waitResult := none }).1 =
      [MgrCall.install, MgrCall.ensureToken, MgrCall.probe1s] := rfl

/-- C6 amended: with no static base url, resolution always runs
`install()` and, when an auth token is configured, `ensure_token()`,
then the ≈1s probe; only when the probe fails does it additionally run
`start()` and the ≈30s `wait_for_https_tunnel`, and a succeeding probe's
url is returned directly. -/
theorem resolve_call_sequence (st : NgrokWebhookState) (env : TunnelEnv)
    (h : st.baseUrl = none) :
    (NgrokWebhook.resolvePublicBaseUrl st env).1 =
      [MgrCall.install]
        ++ (if env.hasNgrokToken then [MgrCall.ensureToken] else [])
        ++ [MgrCall.probe1s]
        ++ (if env.probeResult.isSome then []
            else [MgrCall.start, MgrCall.wait30s]) ∧
    (∀ u, env.probeResult = some u →
      (NgrokWebhook.resolvePublicBaseUrl st env).2 = .ok u) := by
  cases hp : env.probeResult <;>
    cases hw : env.waitResult <;>
      simp [NgrokWebhook.resolvePublicBaseUrl, pyFalsy, h, hp, hw]

/-- Witness for the amended C6: no token, failing probe, succeeding 30s
wait. -/
theorem resolve_call_sequence_witness :
    (NgrokWebhook.resolvePublicBaseUrl
        { baseUrl := none, webhookSecret := "s",
          webhookPath := "/telegram/webhook" }
        { hasNgrokToken := false, probeResult := none,
          waitResult := some "https://z.ngrok.io" }).1 =
      [MgrCall.install]
        ++ (if (false : Bool) then [MgrCall.ensureToken] else [])
        ++ [MgrCall.probe1s]
        ++ (if (none : Option String).isSome then []
            else [MgrCall.start, MgrCall.wait30s]) ∧
    (∀ u, (none : Option String) = some u →
      (NgrokWebhook.resolvePublicBaseUrl
          { baseUrl := none, webhookSecret := "s",
            webhookPath := "/telegram/webhook" }
          { hasNgrokToken := false, probeResult := none,
            waitResult := some "https://z.ngrok.io" }).2 = .ok u) :=
  resolve_call_sequence
    { baseUrl := none, webhookSecret := "s",
      webhookPath := "/telegram/webhook" }
    { hasNgrokToken := false, probeResult := none,
      waitResult := some "https://z.ngrok.io" } rfl

end Botango
